import Mathlib

/-!
# IoT Sensor Dashboard: the frontend controller of `src/frontend/script.js`

A shallow embedding of the class `SensorDashboard`.

* JSON payloads are values of `JsVal`; a number is kept as its binary64 bit
  pattern and its decimal rendering is left to the host (`Host.numberToString`);
  a string is a sequence of Unicode scalar values.
* A method that can throw returns a `Completion`; a method that mutates the page
  before throwing returns the mutated state together with the error thrown.
* The page is the record `Dashboard`: the fields of `this`, the DOM nodes behind
  `this.elements`, and the two pieces of window state the methods act on (the
  table of active interval timers and `document.hidden`).
* One `loadSensorData` call is modelled as one uninterrupted cycle, given what
  `fetch` delivered (`FetchResult`).
-/

namespace SensorDashboard

/-! ## JavaScript values -/

/-- A JavaScript number, as its IEEE-754 binary64 bit pattern. -/
structure JsNumber where
  bits : Nat
deriving DecidableEq, Repr

/-- The numbers `ToBoolean` sends to `false`: `+0`, `-0` and `NaN`. -/
def JsNumber.isFalsy (n : JsNumber) : Bool :=
  let e := (n.bits / 2 ^ 52) % 2 ^ 11
  let m := n.bits % 2 ^ 52
  (e == 0 && m == 0) || (e == 2047 && m != 0)

/-- A value as `JSON.parse` can produce it, plus `undefined` for what a
property read yields when the property is missing. -/
inductive JsVal where
  | undefined
  | null
  | bool (b : Bool)
  | num (n : JsNumber)
  | str (s : String)
  | arr (xs : List JsVal)
  | obj (fs : List (String × JsVal))

/-- An error object: its `name` and its `message`. -/
structure JsError where
  name : String
  message : String
deriving DecidableEq, Repr

/-- The result of evaluating an expression: a value, or an error thrown. -/
inductive Completion (α : Type) where
  | normal (value : α)
  | throw (error : JsError)
deriving DecidableEq, Repr

/-- Sequencing of two evaluations: the second runs unless the first threw. -/
def Completion.bind {α β : Type} : Completion α → (α → Completion β) → Completion β
  | .normal a, f => f a
  | .throw e, _ => .throw e

instance : Monad Completion where
  pure := Completion.normal
  bind := Completion.bind

/-- The three ways the engine raises a `TypeError` in this script. -/
inductive Fault where
  | propertyOfNullish (base : JsVal) (key : String)
  | notCallable (key : String)
  | notPrimitive

/-- What the script takes from the browser and the engine without computing it
itself: number formatting, Unicode upper-casing, locale date formatting, the
wording of engine errors and the source text of built-in functions. -/
structure Host where
  numberToString : JsNumber → String
  toUpperCase : String → String
  dateToLocaleString : JsVal → String
  nowLocaleString : String
  typeErrorMessage : Fault → String
  builtinToString : String → String

/-- The `TypeError` the engine throws for a fault. -/
def typeError (h : Host) (f : Fault) : JsError :=
  ⟨"TypeError", h.typeErrorMessage f⟩

/-- Whether a parsed object has an own property `k`. -/
def hasOwn (k : String) : List (String × JsVal) → Bool
  | [] => false
  | (k', _) :: rest => k' == k || hasOwn k rest

/-- The own property `k` of a parsed object, `undefined` when it has none. -/
def ownOrUndefined (k : String) : List (String × JsVal) → JsVal
  | [] => .undefined
  | (k', v) :: rest => if k' == k then v else ownOrUndefined k rest

/-- The property read `base.k`, for the property names this script reads
(`status`, `message`, `sensors`, `count`, `id`, `name`, `type`, `value`, `unit`,
`location`, `timestamp`): none of them is defined on a built-in prototype, so the
read finds an own property of a parsed object or nothing; on `undefined` and
`null` it throws. -/
def getProp (h : Host) (base : JsVal) (k : String) : Completion JsVal :=
  match base with
  | .undefined => .throw (typeError h (.propertyOfNullish .undefined k))
  | .null => .throw (typeError h (.propertyOfNullish .null k))
  | .obj fs => .normal (ownOrUndefined k fs)
  | _ => .normal .undefined

/-- Whether a value is a primitive (neither array nor object). -/
def JsVal.isPrimitive : JsVal → Bool
  | .arr _ => false
  | .obj _ => false
  | _ => true

/-- `ToString` on a primitive; arrays and objects go through `toStr`. -/
def primToString (h : Host) : JsVal → String
  | .undefined => "undefined"
  | .null => "null"
  | .bool b => if b then "true" else "false"
  | .num n => h.numberToString n
  | .str s => s
  | _ => ""

/-- The string an object contributes to a conversion: `[object Object]`, unless
an own `toString` property (never callable in parsed JSON) shadows the inherited
method, in which case the conversion throws. -/
def objectToString (h : Host) (fs : List (String × JsVal)) : Completion String :=
  if hasOwn "toString" fs then .throw (typeError h .notPrimitive)
  else .normal "[object Object]"

mutual
/-- The string one array element contributes to `join`: nothing for `null` and
`undefined`, its `ToString` otherwise. -/
def elemStr (h : Host) : JsVal → Completion String
  | .undefined => .normal ""
  | .null => .normal ""
  | .arr ys => joinElems h ys
  | .obj fs => objectToString h fs
  | .bool b => .normal (primToString h (.bool b))
  | .num n => .normal (primToString h (.num n))
  | .str s => .normal (primToString h (.str s))
termination_by structural v => v
/-- `Array.prototype.join` with the default separator. -/
def joinElems (h : Host) : List JsVal → Completion String
  | [] => .normal ""
  | x :: rest =>
    match elemStr h x, rest with
    | .throw e, _ => .throw e
    | .normal a, [] => .normal a
    | .normal a, _ :: _ =>
      match joinElems h rest with
      | .throw e => .throw e
      | .normal b => .normal (a ++ "," ++ b)
termination_by structural xs => xs
end

/-- `ToString`, as a template literal applies it to a substitution: an array is
joined with commas, an object goes through `objectToString`. -/
def toStr (h : Host) : JsVal → Completion String
  | .arr xs => joinElems h xs
  | .obj fs => objectToString h fs
  | p => .normal (primToString h p)

/-- `ToPrimitive`: a primitive is returned as it is, an array or object as the
string `toStr` gives. -/
def toPrimitive (h : Host) (v : JsVal) : Completion JsVal :=
  match v with
  | .arr xs => do let s ← toStr h (.arr xs); pure (.str s)
  | .obj fs => do let s ← toStr h (.obj fs); pure (.str s)
  | p => .normal p

/-- `ToBoolean`. -/
def truthy : JsVal → Bool
  | .undefined => false
  | .null => false
  | .bool b => b
  | .num n => !n.isFalsy
  | .str s => s != ""
  | .arr _ => true
  | .obj _ => true

/-- The operand test of `v !== null`. -/
def isNotNull : JsVal → Bool
  | .null => false
  | _ => true

/-- The operand test of `v === 'success'`. -/
def isSuccess : JsVal → Bool
  | .str s => s == "success"
  | _ => false

/-- `String.prototype.replace('_', ' ')` on the characters of a string: the
first underscore becomes a blank. -/
def replaceFirstUnderscore : List Char → List Char
  | [] => []
  | c :: cs => if c = '_' then ' ' :: cs else c :: replaceFirstUnderscore cs

/-- The call `v.replace('_', ' ')`: defined on strings only. -/
def callReplace (h : Host) (v : JsVal) : Completion String :=
  match v with
  | .str s => .normal (String.mk (replaceFirstUnderscore s.data))
  | .undefined => .throw (typeError h (.propertyOfNullish .undefined "replace"))
  | .null => .throw (typeError h (.propertyOfNullish .null "replace"))
  | _ => .throw (typeError h (.notCallable "replace"))

/-! ## Status colours -/

/-- What a lookup `colors[status] || fallback` evaluates to: a class string, or a
member inherited from `Object.prototype`. -/
inductive ClassVal where
  | text (s : String)
  | builtin (key : String)
deriving DecidableEq, Repr

/-- The property names every object literal inherits from `Object.prototype`;
each holds a function or, for `__proto__`, the prototype object, so each is
truthy. -/
def objectPrototypeKeys : List String :=
  ["constructor", "hasOwnProperty", "isPrototypeOf", "propertyIsEnumerable",
   "toLocaleString", "toString", "valueOf", "__proto__", "__defineGetter__",
   "__defineSetter__", "__lookupGetter__", "__lookupSetter__"]

/-- The expression `colors[key] || fallback` for an object literal `colors` whose
own values are non-empty strings. -/
def lookupOr (colors : List (String × String)) (key : String) (fallback : String) :
    ClassVal :=
  match colors.lookup key with
  | some c => .text c
  | none => if objectPrototypeKeys.contains key then .builtin key else .text fallback

/-- `ToString` of a looked-up class value inside a template literal. -/
def ClassVal.render (h : Host) : ClassVal → String
  | .text s => s
  | .builtin key => h.builtinToString key

/-- The object literal `colors` of `getStatusColor`. -/
def statusColors : List (String × String) :=
  [("normal", "bg-green-500"), ("warning", "bg-yellow-500"),
   ("critical", "bg-red-500"), ("error", "bg-gray-500")]

/-- The object literal `colors` of `getStatusBadgeColor`. -/
def statusBadgeColors : List (String × String) :=
  [("normal", "bg-green-100 text-green-800"), ("warning", "bg-yellow-100 text-yellow-800"),
   ("critical", "bg-red-100 text-red-800"), ("error", "bg-gray-100 text-gray-800")]

/-- Method `getStatusColor(status)`: the property key is `ToString` of the
argument. -/
def getStatusColor (h : Host) (status : JsVal) : Completion ClassVal := do
  let key ← toStr h status
  pure (lookupOr statusColors key "bg-gray-500")

/-- Method `getStatusBadgeColor(status)`. -/
def getStatusBadgeColor (h : Host) (status : JsVal) : Completion ClassVal := do
  let key ← toStr h status
  pure (lookupOr statusBadgeColors key "bg-gray-100 text-gray-800")

/-- Method `formatTimestamp(timestamp)`: the `Date` constructor first reduces its
argument to a primitive. -/
def formatTimestamp (h : Host) (timestamp : JsVal) : Completion String := do
  let p ← toPrimitive h timestamp
  pure (h.dateToLocaleString p)

/-! ## The page -/

/-- An element built by `document.createElement`, with the class string and the
markup the script assigns to it. -/
structure Element where
  tagName : String
  className : String
  innerHTML : String
deriving DecidableEq, Repr

/-- A timer handle. `setInterval` returns an integer greater than zero; `pred` is
that integer minus one. -/
structure TimerHandle where
  pred : Nat
deriving DecidableEq, Repr

/-- The integer a handle stands for. -/
def TimerHandle.toNat (t : TimerHandle) : Nat := t.pred + 1

/-- The connection indicator `#connection-status` with the `div` (dot) and the
`span` (text) inside it. -/
structure ConnectionIndicator where
  classes : List String
  dotClassName : String
  text : String
deriving DecidableEq, Repr

/-- The nodes behind `this.elements` that the methods write to, each reduced to
the part written: a class list, a text, or a list of children. -/
structure Elements where
  connectionStatus : ConnectionIndicator
  autoRefreshBtnText : String
  autoRefreshBtnClasses : List String
  errorMessageClasses : List String
  errorText : String
  loadingClasses : List String
  sensorGrid : List Element
  sensorTableBody : List Element
  lastUpdated : String
deriving DecidableEq, Repr

/-- The state the methods of `SensorDashboard` read and write: the fields of
`this`, and from the window the active interval timers (handle and period), the
number of handles issued so far, and `document.hidden`. -/
structure Dashboard where
  autoRefreshInterval : Option TimerHandle
  autoRefreshEnabled : Bool
  refreshIntervalMs : Nat
  elements : Elements
  activeTimers : List (TimerHandle × Nat)
  handlesIssued : Nat
  documentHidden : Bool
deriving DecidableEq, Repr

/-- `classList.add(token)`. -/
def classAdd (token : String) (cs : List String) : List String :=
  if cs.contains token then cs else cs ++ [token]

/-- `classList.remove(token)`. -/
def classRemove (token : String) (cs : List String) : List String :=
  cs.filter (fun c => c != token)

/-- `classList.toggle(token, force)`. -/
def classToggle (token : String) (force : Bool) (cs : List String) : List String :=
  if force then classAdd token cs else classRemove token cs

/-- `setInterval(callback, ms)`, the callback being `loadSensorData`: a fresh
handle is issued and the timer entered among the active ones. -/
def setInterval (d : Dashboard) (ms : Nat) : TimerHandle × Dashboard :=
  (⟨d.handlesIssued⟩,
   { d with activeTimers := (⟨d.handlesIssued⟩, ms) :: d.activeTimers,
            handlesIssued := d.handlesIssued + 1 })

/-- `clearInterval(handle)`. -/
def clearInterval (d : Dashboard) (t : TimerHandle) : Dashboard :=
  { d with activeTimers := d.activeTimers.filter (fun e => e.1 != t) }

/-- `ToBoolean` of the field `autoRefreshInterval`: `null` or a handle. -/
def handleTruthy : Option TimerHandle → Bool
  | none => false
  | some t => t.toNat != 0

/-! ## Rendering -/

/-- The template literal of `statusDot` in `createSensorCard`. -/
def statusDotMarkup (statusColor : String) : String :=
  "<div class=\"w-3 h-3 rounded-full " ++ statusColor ++ " inline-block mr-2\"></div>"

/-- The template literal assigned to `card.innerHTML`, as a function of its eight
substitutions. -/
def cardMarkup (name statusDot status value unit type location time : String) : String :=
  "\n            <div class=\"flex items-center justify-between mb-4\">\n" ++
  "                <h3 class=\"text-lg font-semibold text-gray-800\">" ++ name ++ "</h3>\n" ++
  "                <div class=\"flex items-center\">\n" ++
  "                    " ++ statusDot ++ "\n" ++
  "                    <span class=\"text-sm text-gray-600 capitalize\">" ++ status ++ "</span>\n" ++
  "                </div>\n" ++
  "            </div>\n" ++
  "            \n" ++
  "            <div class=\"mb-4\">\n" ++
  "                <div class=\"text-3xl font-bold text-gray-900 mb-1\">\n" ++
  "                    " ++ value ++ "\n" ++
  "                    <span class=\"text-lg font-normal text-gray-600\">" ++ unit ++ "</span>\n" ++
  "                </div>\n" ++
  "                <div class=\"text-sm text-gray-500\">" ++ type ++ "</div>\n" ++
  "            </div>\n" ++
  "            \n" ++
  "            <div class=\"text-sm text-gray-500\">\n" ++
  "                <div class=\"mb-1\">📍 " ++ location ++ "</div>\n" ++
  "                <div>🕒 " ++ time ++ "</div>\n" ++
  "            </div>\n" ++
  "        "

/-- Method `createSensorCard(sensor)`. -/
def createSensorCard (h : Host) (sensor : JsVal) : Completion Element := do
  let statusColor ← getStatusColor h (← getProp h sensor "status")
  let statusDot := statusDotMarkup (statusColor.render h)
  let name ← toStr h (← getProp h sensor "name")
  let status ← toStr h (← getProp h sensor "status")
  let value ← (do
    if isNotNull (← getProp h sensor "value") then toStr h (← getProp h sensor "value")
    else pure "N/A")
  let unit ← toStr h (← getProp h sensor "unit")
  let type ← callReplace h (← getProp h sensor "type")
  let location ← toStr h (← getProp h sensor "location")
  let time ← formatTimestamp h (← getProp h sensor "timestamp")
  pure
    { tagName := "div"
      className := "bg-white rounded-lg shadow-md p-6 hover:shadow-lg transition-shadow"
      innerHTML := cardMarkup name statusDot status value unit (h.toUpperCase type) location time }

/-- The template literal of `statusBadge` in `createSensorTableRow`. -/
def statusBadgeMarkup (badgeColor statusColor status : String) : String :=
  "<span class=\"inline-flex items-center px-2.5 py-0.5 rounded-full text-xs font-medium " ++
    badgeColor ++ "\">\n" ++
  "            <div class=\"w-2 h-2 rounded-full " ++ statusColor ++ " mr-1\"></div>\n" ++
  "            " ++ status ++ "\n" ++
  "        </span>"

/-- The template literal assigned to `row.innerHTML`, as a function of its six
substitutions. -/
def rowMarkup (id type value unit time statusBadge : String) : String :=
  "\n            <td class=\"px-6 py-4 whitespace-nowrap text-sm font-medium text-gray-900\">" ++
    id ++ "</td>\n" ++
  "            <td class=\"px-6 py-4 whitespace-nowrap text-sm text-gray-900\">" ++
    type ++ "</td>\n" ++
  "            <td class=\"px-6 py-4 whitespace-nowrap text-sm text-gray-900\">" ++
    value ++ "</td>\n" ++
  "            <td class=\"px-6 py-4 whitespace-nowrap text-sm text-gray-500\">" ++
    unit ++ "</td>\n" ++
  "            <td class=\"px-6 py-4 whitespace-nowrap text-sm text-gray-500\">" ++
    time ++ "</td>\n" ++
  "            <td class=\"px-6 py-4 whitespace-nowrap\">" ++ statusBadge ++ "</td>\n" ++
  "        "

/-- Method `createSensorTableRow(sensor)`. -/
def createSensorTableRow (h : Host) (sensor : JsVal) : Completion Element := do
  let statusColor ← getStatusColor h (← getProp h sensor "status")
  let badgeColor ← getStatusBadgeColor h (← getProp h sensor "status")
  let status ← toStr h (← getProp h sensor "status")
  let statusBadge := statusBadgeMarkup (badgeColor.render h) (statusColor.render h) status
  let id ← toStr h (← getProp h sensor "id")
  let type ← callReplace h (← getProp h sensor "type")
  let value ← (do
    if isNotNull (← getProp h sensor "value") then toStr h (← getProp h sensor "value")
    else pure "N/A")
  let unit ← toStr h (← getProp h sensor "unit")
  let time ← formatTimestamp h (← getProp h sensor "timestamp")
  pure
    { tagName := "tr"
      className := "hover:bg-gray-50"
      innerHTML := rowMarkup id type value unit time statusBadge }

/-- The loop `sensors.forEach(sensor => parent.appendChild(create(sensor)))` over
the children `acc` already appended: it stops at the first element whose creation
throws, keeping what was appended before. -/
def appendEach (create : JsVal → Completion Element) :
    List JsVal → List Element → List Element × Option JsError
  | [], acc => (acc, none)
  | s :: rest, acc =>
    match create s with
    | .throw e => (acc, some e)
    | .normal el => appendEach create rest (acc ++ [el])

/-- The statement `container.innerHTML = ''` followed by the `forEach` loop, on
the children of one container: `sensors.forEach` throws unless `sensors` is an
array. -/
def rebuild (h : Host) (create : JsVal → Completion Element) (sensors : JsVal) :
    List Element × Option JsError :=
  match sensors with
  | .arr xs => appendEach create xs []
  | .undefined => ([], some (typeError h (.propertyOfNullish .undefined "forEach")))
  | .null => ([], some (typeError h (.propertyOfNullish .null "forEach")))
  | _ => ([], some (typeError h (.notCallable "forEach")))

/-- Method `displaySensorGrid(sensors)`: the page after it, and the error it threw
if any. -/
def displaySensorGrid (h : Host) (d : Dashboard) (sensors : JsVal) :
    Dashboard × Option JsError :=
  ({ d with elements := { d.elements with
       sensorGrid := (rebuild h (createSensorCard h) sensors).1 } },
   (rebuild h (createSensorCard h) sensors).2)

/-- Method `displaySensorTable(sensors)`. -/
def displaySensorTable (h : Host) (d : Dashboard) (sensors : JsVal) :
    Dashboard × Option JsError :=
  ({ d with elements := { d.elements with
       sensorTableBody := (rebuild h (createSensorTableRow h) sensors).1 } },
   (rebuild h (createSensorTableRow h) sensors).2)

/-- Method `displaySensorData(sensors)`: the grid, then the table unless the grid
threw. -/
def displaySensorData (h : Host) (d : Dashboard) (sensors : JsVal) :
    Dashboard × Option JsError :=
  match displaySensorGrid h d sensors with
  | (d1, some e) => (d1, some e)
  | (d1, none) => displaySensorTable h d1 sensors

/-! ## Status indicators -/

/-- Method `showLoading(show)`. -/
def showLoading (d : Dashboard) (shown : Bool) : Dashboard :=
  { d with elements := { d.elements with
      loadingClasses := classToggle "hidden" (!shown) d.elements.loadingClasses } }

/-- Method `showError(message)`. -/
def showError (d : Dashboard) (message : String) : Dashboard :=
  { d with elements := { d.elements with
      errorText := message
      errorMessageClasses := classRemove "hidden" d.elements.errorMessageClasses } }

/-- Method `hideError()`. -/
def hideError (d : Dashboard) : Dashboard :=
  { d with elements := { d.elements with
      errorMessageClasses := classAdd "hidden" d.elements.errorMessageClasses } }

/-- Method `updateLastUpdated()`. -/
def updateLastUpdated (h : Host) (d : Dashboard) : Dashboard :=
  { d with elements := { d.elements with lastUpdated := h.nowLocaleString } }

/-- The class tokens `updateConnectionStatus` resets the indicator to. -/
def indicatorBaseClasses : List String :=
  ["inline-flex", "items-center", "px-3", "py-1", "rounded-full", "text-sm", "font-medium"]

/-- The indicator after `updateConnectionStatus(status)`: the class string is
reset, then the `switch` sets colours, dot and text for the three known states and
nothing for any other. -/
def connectionIndicatorFor (status : String) (c : ConnectionIndicator) : ConnectionIndicator :=
  if status = "connected" then
    { classes := classAdd "text-green-800" (classAdd "bg-green-100" indicatorBaseClasses)
      dotClassName := "w-2 h-2 rounded-full mr-2 bg-green-500"
      text := "Connected" }
  else if status = "connecting" then
    { classes := classAdd "text-yellow-800" (classAdd "bg-yellow-100" indicatorBaseClasses)
      dotClassName := "w-2 h-2 rounded-full mr-2 bg-yellow-500 animate-pulse"
      text := "Connecting..." }
  else if status = "disconnected" then
    { classes := classAdd "text-red-800" (classAdd "bg-red-100" indicatorBaseClasses)
      dotClassName := "w-2 h-2 rounded-full mr-2 bg-red-500"
      text := "Disconnected" }
  else { c with classes := indicatorBaseClasses }

/-- Method `updateConnectionStatus(status)`. -/
def updateConnectionStatus (d : Dashboard) (status : String) : Dashboard :=
  { d with elements := { d.elements with
      connectionStatus := connectionIndicatorFor status d.elements.connectionStatus } }

/-! ## The fetch cycle -/

/-- What `response.json()` settles to: a decoded value, or the error of a body
that does not parse. -/
inductive JsonResult where
  | decoded (data : JsVal)
  | failed (error : JsError)

/-- The `Response` the script reads: `ok`, `status`, `statusText` and the outcome
of `json()`. -/
structure Response where
  ok : Bool
  status : Nat
  statusText : String
  json : JsonResult

/-- What `fetch` settles to: a response, or the error of a request that never got
one. -/
inductive FetchResult where
  | resolved (response : Response)
  | rejected (error : JsError)

/-- The `if`/`else` on `data.status` inside the `try` block of `loadSensorData`:
the page after it and the error it threw, if any. -/
def handleEnvelope (h : Host) (d : Dashboard) (data : JsVal) : Dashboard × Option JsError :=
  match getProp h data "status" with
  | .throw e => (d, some e)
  | .normal status =>
    if isSuccess status then
      match getProp h data "sensors" with
      | .throw e => (d, some e)
      | .normal sensors =>
        match displaySensorData h d sensors with
        | (d1, some e) => (d1, some e)
        | (d1, none) =>
          let d2 := updateLastUpdated h (updateConnectionStatus d1 "connected")
          match (do toStr h (← getProp h data "count")) with
          | .throw e => (d2, some e)
          | .normal _ => (d2, none)
    else
      match getProp h data "message" with
      | .throw e => (d, some e)
      | .normal message =>
        if truthy message then
          match toStr h message with
          | .throw e => (d, some e)
          | .normal text => (d, some ⟨"Error", text⟩)
        else (d, some ⟨"Error", "Unknown API error"⟩)

/-- The `try` block of `loadSensorData`. -/
def tryLoad (h : Host) (fetched : FetchResult) (d : Dashboard) : Dashboard × Option JsError :=
  match fetched with
  | .rejected e => (d, some e)
  | .resolved response =>
    if !response.ok then
      (d, some ⟨"Error", "HTTP " ++ toString response.status ++ ": " ++ response.statusText⟩)
    else
      match response.json with
      | .failed e => (d, some e)
      | .decoded data => handleEnvelope h d data

/-- Method `loadSensorData()`, as one cycle run to completion on what `fetch`
delivered: `try`, then `catch` when something was thrown, then `finally`. -/
def loadSensorData (h : Host) (fetched : FetchResult) (d : Dashboard) : Dashboard :=
  let d0 := hideError (showLoading d true)
  match tryLoad h fetched d0 with
  | (d1, some error) =>
    showLoading
      (updateConnectionStatus (showError d1 ("Failed to load sensor data: " ++ error.message))
        "disconnected")
      false
  | (d1, none) => showLoading d1 false

/-! ## The refresh scheduler -/

/-- Method `startAutoRefresh()`. -/
def startAutoRefresh (d : Dashboard) : Dashboard :=
  let d1 := { d with autoRefreshEnabled := true }
  let (t, d2) := setInterval d1 d1.refreshIntervalMs
  { d2 with
    autoRefreshInterval := some t
    elements := { d2.elements with
      autoRefreshBtnText := "Auto Refresh: ON"
      autoRefreshBtnClasses :=
        classAdd "hover:bg-red-700" (classAdd "bg-red-600"
          (classRemove "hover:bg-green-700" (classRemove "bg-green-600"
            d2.elements.autoRefreshBtnClasses))) } }

/-- Method `stopAutoRefresh()`. -/
def stopAutoRefresh (d : Dashboard) : Dashboard :=
  let d1 := { d with autoRefreshEnabled := false }
  let d2 :=
    match d1.autoRefreshInterval with
    | some t =>
      if handleTruthy (some t) then { clearInterval d1 t with autoRefreshInterval := none }
      else d1
    | none => d1
  { d2 with
    elements := { d2.elements with
      autoRefreshBtnText := "Auto Refresh: OFF"
      autoRefreshBtnClasses :=
        classAdd "hover:bg-green-700" (classAdd "bg-green-600"
          (classRemove "hover:bg-red-700" (classRemove "bg-red-600"
            d2.elements.autoRefreshBtnClasses))) } }

/-- Method `toggleAutoRefresh()`. -/
def toggleAutoRefresh (d : Dashboard) : Dashboard :=
  if d.autoRefreshEnabled then stopAutoRefresh d else startAutoRefresh d

/-- Method `pauseAutoRefresh()`. -/
def pauseAutoRefresh (d : Dashboard) : Dashboard :=
  match d.autoRefreshInterval with
  | some t =>
    if handleTruthy (some t) then { clearInterval d t with autoRefreshInterval := none }
    else d
  | none => d

/-- Method `resumeAutoRefresh()`. -/
def resumeAutoRefresh (d : Dashboard) : Dashboard :=
  if d.autoRefreshEnabled && !handleTruthy d.autoRefreshInterval then
    let (t, d1) := setInterval d d.refreshIntervalMs
    { d1 with autoRefreshInterval := some t }
  else d

/-- The `visibilitychange` listener of `setupEventListeners`. -/
def onVisibilityChange (d : Dashboard) : Dashboard :=
  if d.documentHidden then pauseAutoRefresh d
  else if d.autoRefreshEnabled then resumeAutoRefresh d
  else d

/-- The events the scheduler reacts to. -/
inductive Event where
  | toggleClick
  | pageHidden
  | pageVisible
deriving DecidableEq, Repr

/-- One event: a click runs the toggle listener; a visibility change sets
`document.hidden` and runs the `visibilitychange` listener. -/
def step (d : Dashboard) : Event → Dashboard
  | .toggleClick => toggleAutoRefresh d
  | .pageHidden => onVisibilityChange { d with documentHidden := true }
  | .pageVisible => onVisibilityChange { d with documentHidden := false }

/-- The page after a sequence of events, oldest first. -/
def run (d : Dashboard) (events : List Event) : Dashboard :=
  events.foldl step d

/-- The state the constructor leaves, on a visible page with no timer active:
no handle, auto-refresh off, a period of 5000 ms; `elements` are whatever nodes
the document holds. -/
def initial (elements : Elements) : Dashboard :=
  { autoRefreshInterval := none
    autoRefreshEnabled := false
    refreshIntervalMs := 5000
    elements := elements
    activeTimers := []
    handlesIssued := 0
    documentHidden := false }

/-- Whether every toggle click of a trace reaches the page while it is visible. -/
def clicksWhileVisible (d : Dashboard) : List Event → Bool
  | [] => true
  | .toggleClick :: rest => !d.documentHidden && clicksWhileVisible (step d .toggleClick) rest
  | e :: rest => clicksWhileVisible (step d e) rest

/-! ## Predicates used in the statements and their proofs -/

/-- The sensors both projections are defined on: a parsed object whose `type` is
a string (the one field a method is called on) and whose other displayed fields
are primitives, each possibly `null` or missing. -/
def wellFormedSensor : JsVal → Bool
  | .obj fs =>
    (match ownOrUndefined "type" fs with
     | .str _ => true
     | _ => false) &&
    ["id", "name", "value", "unit", "status", "location", "timestamp"].all
      (fun k => (ownOrUndefined k fs).isPrimitive)
  | _ => false

/-- The link between the handle field and the timer table: the active timers are
exactly the one the handle names, at the configured period of 5000 ms, and a
disabled scheduler holds no handle. -/
def Linked (d : Dashboard) : Prop :=
  d.activeTimers = d.autoRefreshInterval.toList.map (fun t => (t, d.refreshIntervalMs)) ∧
  (d.autoRefreshEnabled = false → d.autoRefreshInterval = none) ∧
  d.refreshIntervalMs = 5000

/-- A hidden page holds no handle. -/
def Quiet (d : Dashboard) : Prop :=
  d.documentHidden = true → d.autoRefreshInterval = none

/-! ## Concrete inputs -/

/-- A host to evaluate the methods on: `21.5` is the one number it knows how to
print, upper-casing is ASCII, every date prints as the same text. -/
def sampleHost : Host :=
  { numberToString := fun n => if n.bits = 0x4035800000000000 then "21.5" else "0"
    toUpperCase := fun s => String.mk (s.data.map Char.toUpper)
    dateToLocaleString := fun _ => "1/1/2025, 12:00:00 AM"
    nowLocaleString := "1/1/2025, 12:00:05 AM"
    typeErrorMessage := fun _ => "type error"
    builtinToString := fun key =>
      if key = "constructor" then "function Object() \x7b [native code] \x7d"
      else if key = "__proto__" then "[object Object]"
      else "function " ++ key ++ "() \x7b [native code] \x7d" }

/-- A document whose nodes start empty, with the loading indicator and the error
banner hidden. -/
def sampleElements : Elements :=
  { connectionStatus := { classes := [], dotClassName := "", text := "" }
    autoRefreshBtnText := "Auto Refresh: OFF"
    autoRefreshBtnClasses := ["bg-green-600", "hover:bg-green-700"]
    errorMessageClasses := ["hidden"]
    errorText := ""
    loadingClasses := ["hidden"]
    sensorGrid := []
    sensorTableBody := []
    lastUpdated := "" }

/-- The number `21.5`. -/
def n21_5 : JsNumber := ⟨0x4035800000000000⟩

/-- A sensor with every field present and a numeric value. -/
def sensorS1 : JsVal :=
  .obj [("id", .str "s1"), ("name", .str "Boiler"), ("type", .str "temperature"),
        ("value", .num n21_5), ("unit", .str "C"), ("status", .str "normal"),
        ("location", .str "Hall"), ("timestamp", .str "2025-01-01T00:00:00Z")]

/-- The properties of a sensor whose value is `null`. -/
def sensorS2Fields : List (String × JsVal) :=
  [("id", .str "s2"), ("name", .str "Pump"), ("type", .str "flow_rate"),
   ("value", .null), ("unit", .str "l/s"), ("status", .str "error"),
   ("location", .str "Yard"), ("timestamp", .str "2025-01-01T00:00:00Z")]

/-- A sensor whose value is `null`. -/
def sensorS2 : JsVal := .obj sensorS2Fields

/-- A sensor whose payload object has no `value` property at all. -/
def sensorNoValue : JsVal :=
  .obj [("id", .str "s3"), ("name", .str "Valve"), ("type", .str "pressure"),
        ("unit", .str "bar"), ("status", .str "normal"),
        ("location", .str "Roof"), ("timestamp", .str "2025-01-01T00:00:00Z")]

/-! ## Lemmas: evaluation and rendering -/

/-- A value passes to the rest of a sequence. -/
@[simp]
theorem normal_bind {α β : Type} (a : α) (f : α → Completion β) :
    (Completion.normal a >>= f) = f a := rfl

/-- An error thrown ends a sequence. -/
@[simp]
theorem throw_bind {α β : Type} (e : JsError) (f : α → Completion β) :
    (Completion.throw e >>= f) = Completion.throw e := rfl

/-- Returning a value is a normal completion. -/
@[simp]
theorem pure_normal {α : Type} (a : α) : (pure a : Completion α) = Completion.normal a := rfl

/-- On a primitive, `ToString` never throws. -/
theorem toStr_primitive (h : Host) (v : JsVal) (hv : v.isPrimitive = true) :
    toStr h v = .normal (primToString h v) := by
  cases v <;> simp_all [JsVal.isPrimitive, toStr]

/-- On a primitive, `ToPrimitive` is the identity. -/
theorem toPrimitive_primitive (h : Host) (v : JsVal) (hv : v.isPrimitive = true) :
    toPrimitive h v = .normal v := by
  cases v <;> simp_all [JsVal.isPrimitive, toPrimitive]

/-- What `wellFormedSensor` says of each field read by the projections. -/
theorem wellFormed_fields (fs : List (String × JsVal)) (hw : wellFormedSensor (.obj fs) = true) :
    (∃ t, ownOrUndefined "type" fs = .str t) ∧
    (ownOrUndefined "id" fs).isPrimitive = true ∧
    (ownOrUndefined "name" fs).isPrimitive = true ∧
    (ownOrUndefined "value" fs).isPrimitive = true ∧
    (ownOrUndefined "unit" fs).isPrimitive = true ∧
    (ownOrUndefined "status" fs).isPrimitive = true ∧
    (ownOrUndefined "location" fs).isPrimitive = true ∧
    (ownOrUndefined "timestamp" fs).isPrimitive = true := by
  simp only [wellFormedSensor, Bool.and_eq_true, List.all_cons, List.all_nil, Bool.and_true] at hw
  obtain ⟨ht, h1, h2, h3, h4, h5, h6, h7⟩ := hw
  refine ⟨?_, h1, h2, h3, h4, h5, h6, h7⟩
  cases hty : ownOrUndefined "type" fs <;> simp [hty] at ht
  exact ⟨_, rfl⟩

/-- The card of a well-formed sensor, substitution by substitution. -/
theorem createSensorCard_wellFormed (h : Host) (fs : List (String × JsVal))
    (hw : wellFormedSensor (.obj fs) = true) :
    createSensorCard h (.obj fs) = .normal
      { tagName := "div"
        className := "bg-white rounded-lg shadow-md p-6 hover:shadow-lg transition-shadow"
        innerHTML := cardMarkup
          (primToString h (ownOrUndefined "name" fs))
          (statusDotMarkup ((lookupOr statusColors
            (primToString h (ownOrUndefined "status" fs)) "bg-gray-500").render h))
          (primToString h (ownOrUndefined "status" fs))
          (if isNotNull (ownOrUndefined "value" fs) = true
            then primToString h (ownOrUndefined "value" fs) else "N/A")
          (primToString h (ownOrUndefined "unit" fs))
          (h.toUpperCase (String.mk (replaceFirstUnderscore
            (primToString h (ownOrUndefined "type" fs)).data)))
          (primToString h (ownOrUndefined "location" fs))
          (h.dateToLocaleString (ownOrUndefined "timestamp" fs)) } := by
  obtain ⟨⟨t, ht⟩, _, h2, h3, h4, h5, h6, h7⟩ := wellFormed_fields fs hw
  simp only [createSensorCard, getProp, getStatusColor, formatTimestamp, normal_bind,
    pure_normal, toStr_primitive h _ h2, toStr_primitive h _ h3, toStr_primitive h _ h4,
    toStr_primitive h _ h5, toStr_primitive h _ h6, toPrimitive_primitive h _ h7, ht,
    callReplace, primToString]
  split <;> simp

/-- The table row of a well-formed sensor, substitution by substitution. -/
theorem createSensorTableRow_wellFormed (h : Host) (fs : List (String × JsVal))
    (hw : wellFormedSensor (.obj fs) = true) :
    createSensorTableRow h (.obj fs) = .normal
      { tagName := "tr"
        className := "hover:bg-gray-50"
        innerHTML := rowMarkup
          (primToString h (ownOrUndefined "id" fs))
          (String.mk (replaceFirstUnderscore (primToString h (ownOrUndefined "type" fs)).data))
          (if isNotNull (ownOrUndefined "value" fs) = true
            then primToString h (ownOrUndefined "value" fs) else "N/A")
          (primToString h (ownOrUndefined "unit" fs))
          (h.dateToLocaleString (ownOrUndefined "timestamp" fs))
          (statusBadgeMarkup
            ((lookupOr statusBadgeColors
              (primToString h (ownOrUndefined "status" fs)) "bg-gray-100 text-gray-800").render h)
            ((lookupOr statusColors
              (primToString h (ownOrUndefined "status" fs)) "bg-gray-500").render h)
            (primToString h (ownOrUndefined "status" fs))) } := by
  obtain ⟨⟨t, ht⟩, h1, h2, h3, h4, h5, h6, h7⟩ := wellFormed_fields fs hw
  simp only [createSensorTableRow, getProp, getStatusColor, getStatusBadgeColor, formatTimestamp,
    normal_bind, pure_normal, toStr_primitive h _ h1, toStr_primitive h _ h3,
    toStr_primitive h _ h4, toStr_primitive h _ h5, toPrimitive_primitive h _ h7, ht,
    callReplace, primToString]
  split <;> simp


/-- When no creation throws, the loop appends one element per sensor, in order. -/
theorem appendEach_all_normal (create : JsVal → Completion Element) (xs : List JsVal)
    (acc : List Element) (hx : ∀ s ∈ xs, ∃ el, create s = .normal el) :
    ∃ els, appendEach create xs acc = (acc ++ els, none) ∧
      els.map Completion.normal = xs.map create := by
  induction xs generalizing acc with
  | nil => exact ⟨[], by simp [appendEach]⟩
  | cons s rest ih =>
    obtain ⟨el, hel⟩ := hx s (List.mem_cons_self s rest)
    obtain ⟨els, h1, h2⟩ := ih (acc ++ [el]) (fun s' hs' => hx s' (List.mem_cons_of_mem s hs'))
    refine ⟨el :: els, ?_, ?_⟩
    · simp [appendEach, hel, h1]
    · simp [hel, h2]

/-- Both projections return an element on a well-formed sensor. -/
theorem wellFormed_projections (h : Host) (s : JsVal) (hw : wellFormedSensor s = true) :
    (∃ card, createSensorCard h s = .normal card) ∧
    (∃ row, createSensorTableRow h s = .normal row) := by
  cases s with
  | obj fs =>
    exact ⟨⟨_, createSensorCard_wellFormed h fs hw⟩, ⟨_, createSensorTableRow_wellFormed h fs hw⟩⟩
  | _ => simp [wellFormedSensor] at hw

/-- Reading position `i` of a list of elements created one per sensor. -/
theorem index_of_map_eq (create : JsVal → Completion Element) (xs : List JsVal)
    (els : List Element) (hm : els.map Completion.normal = xs.map create)
    (i : Nat) (s : JsVal) (hs : xs[i]? = some s) :
    ∃ el, els[i]? = some el ∧ create s = .normal el := by
  have := congrArg (fun l => l[i]?) hm
  simp only [List.getElem?_map, hs, Option.map_some'] at this
  cases he : els[i]? with
  | none => simp [he] at this
  | some el =>
    simp [he] at this
    exact ⟨el, rfl, this.symm⟩

/-- Claim C1: for every list of well-formed sensors (the empty list included) and
every prior page, `displaySensorData` throws nothing and leaves the card grid and
the table body with exactly `sensors.length` children each, the `i`-th card and
the `i`-th row being `createSensorCard` and `createSensorTableRow` of the `i`-th
sensor. -/
theorem display_one_element_per_sensor (h : Host) (d : Dashboard) (sensors : List JsVal)
    (hw : ∀ s ∈ sensors, wellFormedSensor s = true) :
    (displaySensorData h d (.arr sensors)).2 = none ∧
    (displaySensorData h d (.arr sensors)).1.elements.sensorGrid.length = sensors.length ∧
    (displaySensorData h d (.arr sensors)).1.elements.sensorTableBody.length = sensors.length ∧
    (∀ (i : Nat) (s : JsVal), sensors[i]? = some s → ∃ card row,
      (displaySensorData h d (.arr sensors)).1.elements.sensorGrid[i]? = some card ∧
      (displaySensorData h d (.arr sensors)).1.elements.sensorTableBody[i]? = some row ∧
      createSensorCard h s = .normal card ∧
      createSensorTableRow h s = .normal row) := by
  obtain ⟨cards, hc1, hc2⟩ := appendEach_all_normal (createSensorCard h) sensors []
    (fun s hs => (wellFormed_projections h s (hw s hs)).1)
  obtain ⟨rows, hr1, hr2⟩ := appendEach_all_normal (createSensorTableRow h) sensors []
    (fun s hs => (wellFormed_projections h s (hw s hs)).2)
  have hd : displaySensorData h d (.arr sensors) =
      ({ d with elements := { d.elements with sensorGrid := cards, sensorTableBody := rows } },
       none) := by
    simp [displaySensorData, displaySensorGrid, displaySensorTable, rebuild, hc1, hr1]
  rw [hd]
  refine ⟨rfl, ?_, ?_, ?_⟩
  · simpa using congrArg List.length hc2
  · simpa using congrArg List.length hr2
  · intro i s hs
    obtain ⟨card, hcard, hcc⟩ := index_of_map_eq (createSensorCard h) sensors cards hc2 i s hs
    obtain ⟨row, hrow, hrr⟩ := index_of_map_eq (createSensorTableRow h) sensors rows hr2 i s hs
    exact ⟨card, row, hcard, hrow, hcc, hrr⟩

/-- Claim C1 on the two-sensor payload of the specification: two cards, two rows. -/
theorem display_one_element_per_sensor_witness :
    (∀ s ∈ [sensorS1, sensorS2], wellFormedSensor s = true) ∧
    (displaySensorData sampleHost (initial sampleElements)
      (.arr [sensorS1, sensorS2])).1.elements.sensorGrid.length = 2 ∧
    (displaySensorData sampleHost (initial sampleElements)
      (.arr [sensorS1, sensorS2])).1.elements.sensorTableBody.length = 2 :=
  ⟨by decide,
   (display_one_element_per_sensor sampleHost (initial sampleElements) [sensorS1, sensorS2]
     (by decide)).2.1,
   (display_one_element_per_sensor sampleHost (initial sampleElements) [sensorS1, sensorS2]
     (by decide)).2.2.1⟩

/-- Claim C7: for every argument and every prior page, calling `displaySensorData`
a second time with the same argument leaves the page, and the error thrown if
any, exactly as the first call left them: each call clears a view before it
appends, so nothing accumulates. -/
theorem display_twice_same (h : Host) (d : Dashboard) (sensors : JsVal) :
    displaySensorData h (displaySensorData h d sensors).1 sensors =
      displaySensorData h d sensors := by
  unfold displaySensorData displaySensorGrid displaySensorTable
  cases h1 : (rebuild h (createSensorCard h) sensors).2 <;> simp [h1]

/-- A sequence returns exactly when its first part returns and the rest does. -/
theorem bind_eq_normal {α β : Type} (x : Completion α) (f : α → Completion β) (b : β) :
    (x >>= f) = .normal b ↔ ∃ a, x = .normal a ∧ f a = .normal b := by
  cases x with
  | normal a => simp
  | throw e => simp

/-- The call `v.replace` returns only on a string. -/
theorem callReplace_normal (h : Host) (v : JsVal) (s : String)
    (hc : callReplace h v = .normal s) :
    ∃ t, v = .str t ∧ s = String.mk (replaceFirstUnderscore t.data) := by
  cases v <;> simp [callReplace] at hc
  exact ⟨_, rfl, hc.symm⟩

/-- The text between a fixed beginning and a fixed end of a string is determined. -/
theorem value_between (a b v w : String) (hq : a ++ v ++ b = a ++ w ++ b) : v = w := by
  have h1 := congrArg String.data hq
  simp only [String.data_append] at h1
  have h2 := List.append_cancel_right h1
  have h3 := List.append_cancel_left h2
  exact String.ext h3

/-- A text reading `N/A` at a position reads neither `null` nor `undefined` there. -/
theorem fallback_position (s before after : String)
    (hi : s = before ++ "N/A" ++ after) :
    s = before ++ "N/A" ++ after ∧ s ≠ before ++ "null" ++ after ∧
      s ≠ before ++ "undefined" ++ after :=
  ⟨hi, fun hn => absurd (value_between _ _ _ _ (hi.symm.trans hn)) (by decide),
   fun hn => absurd (value_between _ _ _ _ (hi.symm.trans hn)) (by decide)⟩

/-- The card of a sensor whose value is `null`, whenever one is created. -/
theorem createSensorCard_null_value (h : Host) (fs : List (String × JsVal))
    (hv : ownOrUndefined "value" fs = .null) (card : Element)
    (hc : createSensorCard h (.obj fs) = .normal card) :
    ∃ colour name status unit type location time,
      getStatusColor h (ownOrUndefined "status" fs) = .normal colour ∧
      toStr h (ownOrUndefined "name" fs) = .normal name ∧
      toStr h (ownOrUndefined "status" fs) = .normal status ∧
      toStr h (ownOrUndefined "unit" fs) = .normal unit ∧
      ownOrUndefined "type" fs = .str type ∧
      toStr h (ownOrUndefined "location" fs) = .normal location ∧
      formatTimestamp h (ownOrUndefined "timestamp" fs) = .normal time ∧
      card =
        { tagName := "div"
          className := "bg-white rounded-lg shadow-md p-6 hover:shadow-lg transition-shadow"
          innerHTML := cardMarkup name (statusDotMarkup (colour.render h)) status "N/A" unit
            (h.toUpperCase (String.mk (replaceFirstUnderscore type.data))) location time } := by
  simp only [createSensorCard, getProp, normal_bind, hv, isNotNull, pure_normal,
    Bool.false_eq_true, if_false, bind_eq_normal] at hc
  obtain ⟨colour, h1, name, h2, status, h3, unit, h4, ty, h5, location, h6, time, h7, h8⟩ := hc
  obtain ⟨t, ht, hty⟩ := callReplace_normal h _ _ h5
  refine ⟨colour, name, status, unit, t, location, time, h1, h2, h3, h4, ht, h6, h7, ?_⟩
  rw [← hty]
  simpa using h8.symm


/-- The table row of a sensor whose value is `null`, whenever one is created. -/
theorem createSensorTableRow_null_value (h : Host) (fs : List (String × JsVal))
    (hv : ownOrUndefined "value" fs = .null) (row : Element)
    (hc : createSensorTableRow h (.obj fs) = .normal row) :
    ∃ colour badge status id type unit time,
      getStatusColor h (ownOrUndefined "status" fs) = .normal colour ∧
      getStatusBadgeColor h (ownOrUndefined "status" fs) = .normal badge ∧
      toStr h (ownOrUndefined "status" fs) = .normal status ∧
      toStr h (ownOrUndefined "id" fs) = .normal id ∧
      ownOrUndefined "type" fs = .str type ∧
      toStr h (ownOrUndefined "unit" fs) = .normal unit ∧
      formatTimestamp h (ownOrUndefined "timestamp" fs) = .normal time ∧
      row =
        { tagName := "tr"
          className := "hover:bg-gray-50"
          innerHTML := rowMarkup id (String.mk (replaceFirstUnderscore type.data)) "N/A" unit time
            (statusBadgeMarkup (badge.render h) (colour.render h) status) } := by
  simp only [createSensorTableRow, getProp, normal_bind, hv, isNotNull, pure_normal,
    Bool.false_eq_true, if_false, bind_eq_normal] at hc
  obtain ⟨colour, h1, badge, h2, status, h3, id, h4, ty, h5, unit, h6, time, h7, h8⟩ := hc
  obtain ⟨t, ht, hty⟩ := callReplace_normal h _ _ h5
  refine ⟨colour, badge, status, id, t, unit, time, h1, h2, h3, h4, ht, h6, h7, ?_⟩
  rw [← hty]
  simpa using h8.symm

/-- Claim C4: for every sensor whose `value` is `null`, whenever `createSensorCard`
or `createSensorTableRow` returns an element, its markup is the template filled
with the string forms of the other fields, with the literal `N/A` at the value
position, and it is not that markup with `null` or `undefined` there; and on a
well-formed sensor both methods do return an element. -/
theorem null_value_renders_fallback (h : Host) (fs : List (String × JsVal))
    (hv : ownOrUndefined "value" fs = .null) :
    (∀ card, createSensorCard h (.obj fs) = .normal card →
      ∃ colour name status unit type location time before after,
        getStatusColor h (ownOrUndefined "status" fs) = .normal colour ∧
        toStr h (ownOrUndefined "name" fs) = .normal name ∧
        toStr h (ownOrUndefined "status" fs) = .normal status ∧
        toStr h (ownOrUndefined "unit" fs) = .normal unit ∧
        ownOrUndefined "type" fs = .str type ∧
        toStr h (ownOrUndefined "location" fs) = .normal location ∧
        formatTimestamp h (ownOrUndefined "timestamp" fs) = .normal time ∧
        before =
          "\n            <div class=\"flex items-center justify-between mb-4\">\n" ++
          "                <h3 class=\"text-lg font-semibold text-gray-800\">" ++ name ++ "</h3>\n" ++
          "                <div class=\"flex items-center\">\n" ++
          "                    " ++ "<div class=\"w-3 h-3 rounded-full " ++ colour.render h ++
            " inline-block mr-2\"></div>" ++ "\n" ++
          "                    <span class=\"text-sm text-gray-600 capitalize\">" ++ status ++
            "</span>\n" ++
          "                </div>\n" ++
          "            </div>\n" ++
          "            \n" ++
          "            <div class=\"mb-4\">\n" ++
          "                <div class=\"text-3xl font-bold text-gray-900 mb-1\">\n" ++
          "                    " ∧
        after =
          "\n" ++
          "                    <span class=\"text-lg font-normal text-gray-600\">" ++ unit ++
            "</span>\n" ++
          "                </div>\n" ++
          "                <div class=\"text-sm text-gray-500\">" ++
            h.toUpperCase (String.mk (replaceFirstUnderscore type.data)) ++ "</div>\n" ++
          "            </div>\n" ++
          "            \n" ++
          "            <div class=\"text-sm text-gray-500\">\n" ++
          "                <div class=\"mb-1\">📍 " ++ location ++ "</div>\n" ++
          "                <div>🕒 " ++ time ++ "</div>\n" ++
          "            </div>\n" ++
          "        " ∧
        card.tagName = "div" ∧
        card.innerHTML = before ++ "N/A" ++ after ∧
        card.innerHTML ≠ before ++ "null" ++ after ∧
        card.innerHTML ≠ before ++ "undefined" ++ after) ∧
    (∀ row, createSensorTableRow h (.obj fs) = .normal row →
      ∃ colour badge status id type unit time before after,
        getStatusColor h (ownOrUndefined "status" fs) = .normal colour ∧
        getStatusBadgeColor h (ownOrUndefined "status" fs) = .normal badge ∧
        toStr h (ownOrUndefined "status" fs) = .normal status ∧
        toStr h (ownOrUndefined "id" fs) = .normal id ∧
        ownOrUndefined "type" fs = .str type ∧
        toStr h (ownOrUndefined "unit" fs) = .normal unit ∧
        formatTimestamp h (ownOrUndefined "timestamp" fs) = .normal time ∧
        before =
          "\n            <td class=\"px-6 py-4 whitespace-nowrap text-sm font-medium text-gray-900\">" ++
            id ++ "</td>\n" ++
          "            <td class=\"px-6 py-4 whitespace-nowrap text-sm text-gray-900\">" ++
            String.mk (replaceFirstUnderscore type.data) ++ "</td>\n" ++
          "            <td class=\"px-6 py-4 whitespace-nowrap text-sm text-gray-900\">" ∧
        after =
          "</td>\n" ++
          "            <td class=\"px-6 py-4 whitespace-nowrap text-sm text-gray-500\">" ++
            unit ++ "</td>\n" ++
          "            <td class=\"px-6 py-4 whitespace-nowrap text-sm text-gray-500\">" ++
            time ++ "</td>\n" ++
          "            <td class=\"px-6 py-4 whitespace-nowrap\">" ++
            "<span class=\"inline-flex items-center px-2.5 py-0.5 rounded-full text-xs font-medium " ++
            badge.render h ++ "\">\n" ++
            "            <div class=\"w-2 h-2 rounded-full " ++ colour.render h ++
            " mr-1\"></div>\n" ++
            "            " ++ status ++ "\n" ++
            "        </span>" ++ "</td>\n" ++
          "        " ∧
        row.tagName = "tr" ∧
        row.innerHTML = before ++ "N/A" ++ after ∧
        row.innerHTML ≠ before ++ "null" ++ after ∧
        row.innerHTML ≠ before ++ "undefined" ++ after) ∧
    (wellFormedSensor (.obj fs) = true →
      (∃ card, createSensorCard h (.obj fs) = .normal card) ∧
      (∃ row, createSensorTableRow h (.obj fs) = .normal row)) := by
  refine ⟨?_, ?_, fun hw => wellFormed_projections h (.obj fs) hw⟩
  · intro card hc
    obtain ⟨colour, name, status, unit, type, location, time, h1, h2, h3, h4, h5, h6, h7, h8⟩ :=
      createSensorCard_null_value h fs hv card hc
    refine ⟨colour, name, status, unit, type, location, time, _, _, h1, h2, h3, h4, h5, h6, h7,
      rfl, rfl, by rw [h8], ?_⟩
    refine fallback_position _ _ _ ?_
    rw [h8]
    simp only [cardMarkup, statusDotMarkup, String.append_assoc]
  · intro row hc
    obtain ⟨colour, badge, status, id, type, unit, time, h1, h2, h3, h4, h5, h6, h7, h8⟩ :=
      createSensorTableRow_null_value h fs hv row hc
    refine ⟨colour, badge, status, id, type, unit, time, _, _, h1, h2, h3, h4, h5, h6, h7,
      rfl, rfl, by rw [h8], ?_⟩
    refine fallback_position _ _ _ ?_
    rw [h8]
    simp only [rowMarkup, statusBadgeMarkup, String.append_assoc]

set_option maxRecDepth 1000000 in
/-- Claim C4 on the sensor `s2` of the specification, whose value is `null`: both
elements are created, and the card and the row read `N/A` at the value
position. -/
theorem null_value_renders_fallback_witness :
    ownOrUndefined "value" sensorS2Fields = .null ∧
    wellFormedSensor (.obj sensorS2Fields) = true ∧
    ((∃ card, createSensorCard sampleHost (.obj sensorS2Fields) = .normal card) ∧
      (∃ row, createSensorTableRow sampleHost (.obj sensorS2Fields) = .normal row)) ∧
    createSensorCard sampleHost (.obj sensorS2Fields) = .normal
      { tagName := "div"
        className := "bg-white rounded-lg shadow-md p-6 hover:shadow-lg transition-shadow"
        innerHTML :=
          "\n            <div class=\"flex items-center justify-between mb-4\">\n" ++
          "                <h3 class=\"text-lg font-semibold text-gray-800\">Pump</h3>\n" ++
          "                <div class=\"flex items-center\">\n" ++
          "                    <div class=\"w-3 h-3 rounded-full bg-gray-500 inline-block mr-2\"></div>\n" ++
          "                    <span class=\"text-sm text-gray-600 capitalize\">error</span>\n" ++
          "                </div>\n" ++
          "            </div>\n" ++
          "            \n" ++
          "            <div class=\"mb-4\">\n" ++
          "                <div class=\"text-3xl font-bold text-gray-900 mb-1\">\n" ++
          "                    N/A\n" ++
          "                    <span class=\"text-lg font-normal text-gray-600\">l/s</span>\n" ++
          "                </div>\n" ++
          "                <div class=\"text-sm text-gray-500\">FLOW RATE</div>\n" ++
          "            </div>\n" ++
          "            \n" ++
          "            <div class=\"text-sm text-gray-500\">\n" ++
          "                <div class=\"mb-1\">📍 Yard</div>\n" ++
          "                <div>🕒 1/1/2025, 12:00:00 AM</div>\n" ++
          "            </div>\n" ++
          "        " } ∧
    createSensorTableRow sampleHost (.obj sensorS2Fields) = .normal
      { tagName := "tr"
        className := "hover:bg-gray-50"
        innerHTML :=
          "\n            <td class=\"px-6 py-4 whitespace-nowrap text-sm font-medium text-gray-900\">s2</td>\n" ++
          "            <td class=\"px-6 py-4 whitespace-nowrap text-sm text-gray-900\">flow rate</td>\n" ++
          "            <td class=\"px-6 py-4 whitespace-nowrap text-sm text-gray-900\">N/A</td>\n" ++
          "            <td class=\"px-6 py-4 whitespace-nowrap text-sm text-gray-500\">l/s</td>\n" ++
          "            <td class=\"px-6 py-4 whitespace-nowrap text-sm text-gray-500\">1/1/2025, 12:00:00 AM</td>\n" ++
          "            <td class=\"px-6 py-4 whitespace-nowrap\"><span class=\"inline-flex items-center px-2.5 py-0.5 rounded-full text-xs font-medium bg-gray-100 text-gray-800\">\n" ++
          "            <div class=\"w-2 h-2 rounded-full bg-gray-500 mr-1\"></div>\n" ++
          "            error\n" ++
          "        </span></td>\n" ++
          "        " } :=
  ⟨rfl, by decide,
   (null_value_renders_fallback sampleHost sensorS2Fields rfl).2.2 (by decide),
   by decide, by decide⟩

/-! ## Lemmas and theorems: the fetch cycle -/

/-- After `classList.remove` the token is gone. -/
theorem hidden_not_mem_classRemove (cs : List String) : "hidden" ∉ classRemove "hidden" cs := by
  simp [classRemove]

/-- After `classList.add` the token is there. -/
theorem hidden_mem_classAdd (cs : List String) : "hidden" ∈ classAdd "hidden" cs := by
  unfold classAdd
  split
  · rename_i hc; simpa using hc
  · simp

/-- The indicator that `updateConnectionStatus` draws for `disconnected`. -/
theorem indicator_disconnected (c : ConnectionIndicator) :
    connectionIndicatorFor "disconnected" c =
      { classes := ["inline-flex", "items-center", "px-3", "py-1", "rounded-full", "text-sm",
                    "font-medium", "bg-red-100", "text-red-800"]
        dotClassName := "w-2 h-2 rounded-full mr-2 bg-red-500"
        text := "Disconnected" } := by
  unfold connectionIndicatorFor
  rw [if_neg (by decide), if_neg (by decide), if_pos rfl]
  decide

/-- What `catch` and `finally` leave on the page, whatever it was when the cycle began. -/
theorem failure_effects (d : Dashboard) (msg : String) :
    (showLoading (updateConnectionStatus (showError (hideError (showLoading d true)) msg)
      "disconnected") false).elements.errorText = msg ∧
    "hidden" ∉ (showLoading (updateConnectionStatus (showError (hideError (showLoading d true)) msg)
      "disconnected") false).elements.errorMessageClasses ∧
    (showLoading (updateConnectionStatus (showError (hideError (showLoading d true)) msg)
      "disconnected") false).elements.connectionStatus =
      { classes := ["inline-flex", "items-center", "px-3", "py-1", "rounded-full", "text-sm",
                    "font-medium", "bg-red-100", "text-red-800"]
        dotClassName := "w-2 h-2 rounded-full mr-2 bg-red-500"
        text := "Disconnected" } ∧
    "hidden" ∈ (showLoading (updateConnectionStatus (showError (hideError (showLoading d true)) msg)
      "disconnected") false).elements.loadingClasses ∧
    (showLoading (updateConnectionStatus (showError (hideError (showLoading d true)) msg)
      "disconnected") false).elements.sensorGrid = d.elements.sensorGrid ∧
    (showLoading (updateConnectionStatus (showError (hideError (showLoading d true)) msg)
      "disconnected") false).elements.sensorTableBody = d.elements.sensorTableBody := by
  refine ⟨rfl, ?_, ?_, ?_, rfl, rfl⟩
  · exact hidden_not_mem_classRemove _
  · simp only [showLoading, updateConnectionStatus]
    exact indicator_disconnected _
  · exact hidden_mem_classAdd _

/-- A cycle whose `try` block threw without touching the page ends in `catch` and `finally`. -/
theorem failed_cycle (h : Host) (fetched : FetchResult) (d : Dashboard) (e : JsError)
    (ht : tryLoad h fetched (hideError (showLoading d true)) =
      (hideError (showLoading d true), some e)) :
    loadSensorData h fetched d =
      showLoading (updateConnectionStatus (showError (hideError (showLoading d true))
        ("Failed to load sensor data: " ++ e.message)) "disconnected") false := by
  simp [loadSensorData, ht]

/-- Claim C2: for every response whose `ok` is false, one `loadSensorData` cycle ends
with the error banner visible and reading `Failed to load sensor data: HTTP
<status>: <statusText>` (the status code in decimal), the connection indicator
drawn as disconnected, the loading indicator hidden, and the card grid and table
body as they were before the cycle. -/
theorem http_error_cycle (h : Host) (d : Dashboard) (r : Response) (hr : r.ok = false) :
    (loadSensorData h (.resolved r) d).elements.errorText =
      "Failed to load sensor data: HTTP " ++ toString r.status ++ ": " ++ r.statusText ∧
    "hidden" ∉ (loadSensorData h (.resolved r) d).elements.errorMessageClasses ∧
    (loadSensorData h (.resolved r) d).elements.connectionStatus =
      { classes := ["inline-flex", "items-center", "px-3", "py-1", "rounded-full", "text-sm",
                    "font-medium", "bg-red-100", "text-red-800"]
        dotClassName := "w-2 h-2 rounded-full mr-2 bg-red-500"
        text := "Disconnected" } ∧
    "hidden" ∈ (loadSensorData h (.resolved r) d).elements.loadingClasses ∧
    (loadSensorData h (.resolved r) d).elements.sensorGrid = d.elements.sensorGrid ∧
    (loadSensorData h (.resolved r) d).elements.sensorTableBody = d.elements.sensorTableBody := by
  have ht : tryLoad h (.resolved r) (hideError (showLoading d true)) =
      (hideError (showLoading d true),
       some ⟨"Error", "HTTP " ++ toString r.status ++ ": " ++ r.statusText⟩) := by
    simp [tryLoad, hr]
  rw [failed_cycle h _ d _ ht]
  have := failure_effects d ("Failed to load sensor data: " ++
    ("HTTP " ++ toString r.status ++ ": " ++ r.statusText))
  simpa [String.append_assoc] using this

/-- Claim C2 on an HTTP 500 response: the banner text contains `500`. -/
theorem http_error_cycle_witness :
    (⟨false, 500, "Internal Server Error", .failed ⟨"SyntaxError", "Unexpected token"⟩⟩ :
      Response).ok = false ∧
    (loadSensorData sampleHost
      (.resolved ⟨false, 500, "Internal Server Error",
        .failed ⟨"SyntaxError", "Unexpected token"⟩⟩)
      (initial sampleElements)).elements.errorText =
      "Failed to load sensor data: HTTP 500: Internal Server Error" :=
  ⟨rfl, (http_error_cycle sampleHost (initial sampleElements)
    ⟨false, 500, "Internal Server Error", .failed ⟨"SyntaxError", "Unexpected token"⟩⟩
    rfl).1.trans (by decide)⟩


/-- The test `status === "success"` fails on anything but that string. -/
theorem isSuccess_false (s : JsVal) (hs : s ≠ .str "success") : isSuccess s = false := by
  cases s with
  | str t =>
    have : t ≠ "success" := fun h => hs (by rw [h])
    simpa [isSuccess] using this
  | _ => rfl

/-- An envelope whose status is not `success` makes the `try` block throw, the page untouched. -/
theorem handleEnvelope_failure (h : Host) (d : Dashboard) (data : JsVal)
    (hs : getProp h data "status" ≠ .normal (.str "success")) :
    ∃ e, handleEnvelope h d data = (d, some e) := by
  unfold handleEnvelope
  cases hst : getProp h data "status" with
  | throw e => exact ⟨e, rfl⟩
  | normal s =>
    have hne : s ≠ .str "success" := fun hh => hs (by rw [hst, hh])
    simp only [isSuccess_false s hne]
    cases hm : getProp h data "message" with
    | throw e => exact ⟨e, by simp⟩
    | normal m =>
      by_cases htm : truthy m = true
      · cases hts : toStr h m with
        | throw e => exact ⟨e, by simp [htm, hts]⟩
        | normal text => exact ⟨⟨"Error", text⟩, by simp [htm, hts]⟩
      · exact ⟨⟨"Error", "Unknown API error"⟩, by simp [htm]⟩

/-- The error thrown for a failure envelope: the message when truthy, the fallback otherwise. -/
theorem handleEnvelope_message (h : Host) (d : Dashboard) (fs : List (String × JsVal))
    (hs : getProp h (.obj fs) "status" ≠ .normal (.str "success")) :
    (∀ text, truthy (ownOrUndefined "message" fs) = true →
      toStr h (ownOrUndefined "message" fs) = .normal text →
      handleEnvelope h d (.obj fs) = (d, some ⟨"Error", text⟩)) ∧
    (truthy (ownOrUndefined "message" fs) = false →
      handleEnvelope h d (.obj fs) = (d, some ⟨"Error", "Unknown API error"⟩)) := by
  have hne : ownOrUndefined "status" fs ≠ .str "success" := fun hh => hs (by simp [getProp, hh])
  constructor
  · intro text ht hts
    simp [handleEnvelope, getProp, isSuccess_false _ hne, ht, hts]
  · intro ht
    simp [handleEnvelope, getProp, isSuccess_false _ hne, ht]

/-- Claim C3, as amended: for every decoded body whose `status` is anything but the
string `success`, the cycle is a failure (banner visible with a text that starts
`Failed to load sensor data: `, indicator disconnected, loading hidden, no view
touched); when the envelope is an object whose `message` is truthy the text
carries the string form of that message, and when `message` is missing or falsy
(`null`, `false`, `0`, `NaN` or the empty string) it carries `Unknown API
error`. -/
theorem envelope_failure_cycle (h : Host) (d : Dashboard) (r : Response) (data : JsVal)
    (hok : r.ok = true) (hj : r.json = .decoded data)
    (hs : getProp h data "status" ≠ .normal (.str "success")) :
    (∃ msg, (loadSensorData h (.resolved r) d).elements.errorText =
      "Failed to load sensor data: " ++ msg) ∧
    "hidden" ∉ (loadSensorData h (.resolved r) d).elements.errorMessageClasses ∧
    (loadSensorData h (.resolved r) d).elements.connectionStatus =
      { classes := ["inline-flex", "items-center", "px-3", "py-1", "rounded-full", "text-sm",
                    "font-medium", "bg-red-100", "text-red-800"]
        dotClassName := "w-2 h-2 rounded-full mr-2 bg-red-500"
        text := "Disconnected" } ∧
    "hidden" ∈ (loadSensorData h (.resolved r) d).elements.loadingClasses ∧
    (loadSensorData h (.resolved r) d).elements.sensorGrid = d.elements.sensorGrid ∧
    (loadSensorData h (.resolved r) d).elements.sensorTableBody = d.elements.sensorTableBody ∧
    (∀ fs text, data = .obj fs → truthy (ownOrUndefined "message" fs) = true →
      toStr h (ownOrUndefined "message" fs) = .normal text →
      (loadSensorData h (.resolved r) d).elements.errorText =
        "Failed to load sensor data: " ++ text) ∧
    (∀ fs, data = .obj fs → truthy (ownOrUndefined "message" fs) = false →
      (loadSensorData h (.resolved r) d).elements.errorText =
        "Failed to load sensor data: Unknown API error") := by
  have htry : ∀ d0, tryLoad h (.resolved r) d0 = handleEnvelope h d0 data := by
    intro d0; simp [tryLoad, hok, hj]
  obtain ⟨e, he⟩ := handleEnvelope_failure h (hideError (showLoading d true)) data hs
  have hcyc := failed_cycle h (.resolved r) d e (by rw [htry, he])
  obtain ⟨f1, f2, f3, f4, f5, f6⟩ :=
    failure_effects d ("Failed to load sensor data: " ++ e.message)
  rw [← hcyc] at f1 f2 f3 f4 f5 f6
  refine ⟨⟨e.message, f1⟩, f2, f3, f4, f5, f6, ?_, ?_⟩
  · intro fs text hd ht hts
    subst hd
    have := (handleEnvelope_message h (hideError (showLoading d true)) fs hs).1 text ht hts
    rw [he] at this
    have hee : e = ⟨"Error", text⟩ := by simpa using this
    rw [f1, hee]
  · intro fs hd ht
    subst hd
    have := (handleEnvelope_message h (hideError (showLoading d true)) fs hs).2 ht
    rw [he] at this
    have hee : e = ⟨"Error", "Unknown API error"⟩ := by simpa using this
    rw [f1, hee]
    rfl

/-- Claim C3 on an envelope with status `error` and a message: the banner shows the message. -/
theorem envelope_failure_cycle_witness :
    (loadSensorData sampleHost
      (.resolved ⟨true, 200, "OK",
        .decoded (.obj [("status", .str "error"), ("message", .str "Sensor bus offline")])⟩)
      (initial sampleElements)).elements.errorText =
      "Failed to load sensor data: " ++ "Sensor bus offline" :=
  (envelope_failure_cycle sampleHost (initial sampleElements)
    ⟨true, 200, "OK",
      .decoded (.obj [("status", .str "error"), ("message", .str "Sensor bus offline")])⟩
    (.obj [("status", .str "error"), ("message", .str "Sensor bus offline")])
    rfl rfl (by simp [getProp, ownOrUndefined])).2.2.2.2.2.2.1
    [("status", .str "error"), ("message", .str "Sensor bus offline")] "Sensor bus offline"
    rfl rfl rfl

/-- Claim C3 as stated fails: an envelope that has a `message` property, the empty
string, is answered with the generic fallback text. -/
theorem empty_message_shows_fallback :
    hasOwn "message" [("status", .str "error"), ("message", .str "")] = true ∧
    (loadSensorData sampleHost
      (.resolved ⟨true, 200, "OK",
        .decoded (.obj [("status", .str "error"), ("message", .str "")])⟩)
      (initial sampleElements)).elements.errorText =
      "Failed to load sensor data: Unknown API error" := by
  decide

set_option maxRecDepth 1000000 in
/-- Claim C5 fails on the code: for a sensor whose payload has no `value` property
the test `sensor.value !== null` passes, and the card and the table row show the
text `undefined` in the value position instead of `N/A`. -/
theorem missing_value_renders_undefined :
    createSensorCard sampleHost sensorNoValue = .normal
      { tagName := "div"
        className := "bg-white rounded-lg shadow-md p-6 hover:shadow-lg transition-shadow"
        innerHTML := cardMarkup "Valve" (statusDotMarkup "bg-green-500") "normal" "undefined"
          "bar" "PRESSURE" "Roof" "1/1/2025, 12:00:00 AM" } ∧
    createSensorTableRow sampleHost sensorNoValue = .normal
      { tagName := "tr"
        className := "hover:bg-gray-50"
        innerHTML := rowMarkup "s3" "pressure" "undefined" "bar" "1/1/2025, 12:00:00 AM"
          (statusBadgeMarkup "bg-green-100 text-green-800" "bg-green-500" "normal") } := by
  decide

/-- Claim C6 fails on the code: for the status strings `constructor` and `toString`
the lookup `colors[status]` finds the member inherited from `Object.prototype`,
which is truthy, so neither method returns its default; for the empty string
both do. -/
theorem inherited_key_bypasses_default (h : Host) :
    getStatusColor h (.str "constructor") = .normal (.builtin "constructor") ∧
    getStatusBadgeColor h (.str "constructor") = .normal (.builtin "constructor") ∧
    getStatusColor h (.str "toString") = .normal (.builtin "toString") ∧
    getStatusBadgeColor h (.str "toString") = .normal (.builtin "toString") ∧
    getStatusColor h (.str "") = .normal (.text "bg-gray-500") ∧
    getStatusBadgeColor h (.str "") = .normal (.text "bg-gray-100 text-gray-800") := by
  refine ⟨?_, ?_, ?_, ?_, ?_, ?_⟩ <;> rfl

/-- For every status string that is neither one of the four known tags nor a
property name of `Object.prototype`, both colour methods return their default. -/
theorem unknown_status_default (h : Host) (s : String)
    (hk : s ∉ ["normal", "warning", "critical", "error"])
    (hp : s ∉ objectPrototypeKeys) :
    getStatusColor h (.str s) = .normal (.text "bg-gray-500") ∧
    getStatusBadgeColor h (.str s) = .normal (.text "bg-gray-100 text-gray-800") := by
  simp only [List.mem_cons, List.mem_singleton, not_or, List.mem_nil_iff, or_false] at hk
  obtain ⟨k1, k2, k3, k4⟩ := hk
  have b1 : (s == "normal") = false := by simpa using k1
  have b2 : (s == "warning") = false := by simpa using k2
  have b3 : (s == "critical") = false := by simpa using k3
  have b4 : (s == "error") = false := by simpa using k4
  have l1 : statusColors.lookup s = none := by
    simp [statusColors, List.lookup, b1, b2, b3, b4]
  have l2 : statusBadgeColors.lookup s = none := by
    simp [statusBadgeColors, List.lookup, b1, b2, b3, b4]
  simp [getStatusColor, getStatusBadgeColor, toStr, primToString, lookupOr, l1, l2, hp]

/-- The default colours on the unknown status `offline`. -/
theorem unknown_status_default_witness :
    "offline" ∉ ["normal", "warning", "critical", "error"] ∧
    "offline" ∉ objectPrototypeKeys ∧
    getStatusColor sampleHost (.str "offline") = .normal (.text "bg-gray-500") :=
  ⟨by decide, by decide, (unknown_status_default sampleHost "offline" (by decide) (by decide)).1⟩

/-- The success scenario of the specification: two sensors, the first reading
21.5 and the second `null`, leave two cards and two rows, the indicator reading
`Connected`, the banner and the loading indicator hidden. -/
theorem success_cycle_scenario :
    (loadSensorData sampleHost
      (.resolved ⟨true, 200, "OK",
        .decoded (.obj [("status", .str "success"), ("count", .num ⟨0x4000000000000000⟩),
          ("sensors", .arr [sensorS1, sensorS2])])⟩)
      (initial sampleElements)).elements.sensorGrid.length = 2 ∧
    (loadSensorData sampleHost
      (.resolved ⟨true, 200, "OK",
        .decoded (.obj [("status", .str "success"), ("count", .num ⟨0x4000000000000000⟩),
          ("sensors", .arr [sensorS1, sensorS2])])⟩)
      (initial sampleElements)).elements.sensorTableBody.length = 2 ∧
    (loadSensorData sampleHost
      (.resolved ⟨true, 200, "OK",
        .decoded (.obj [("status", .str "success"), ("count", .num ⟨0x4000000000000000⟩),
          ("sensors", .arr [sensorS1, sensorS2])])⟩)
      (initial sampleElements)).elements.connectionStatus.text = "Connected" ∧
    "hidden" ∈ (loadSensorData sampleHost
      (.resolved ⟨true, 200, "OK",
        .decoded (.obj [("status", .str "success"), ("count", .num ⟨0x4000000000000000⟩),
          ("sensors", .arr [sensorS1, sensorS2])])⟩)
      (initial sampleElements)).elements.errorMessageClasses ∧
    "hidden" ∈ (loadSensorData sampleHost
      (.resolved ⟨true, 200, "OK",
        .decoded (.obj [("status", .str "success"), ("count", .num ⟨0x4000000000000000⟩),
          ("sensors", .arr [sensorS1, sensorS2])])⟩)
      (initial sampleElements)).elements.loadingClasses := by
  decide

/-! ## Lemmas and theorems: the refresh scheduler -/

/-- A timer handle is truthy. -/
theorem handleTruthy_some (t : TimerHandle) : handleTruthy (some t) = true := by
  simp [handleTruthy, TimerHandle.toNat]

/-- The constructor leaves handle and timer table linked. -/
theorem linked_initial (els : Elements) : Linked (initial els) := by
  simp [Linked, initial]

/-- After `pauseAutoRefresh` no handle is set. -/
theorem pause_interval (d : Dashboard) : (pauseAutoRefresh d).autoRefreshInterval = none := by
  unfold pauseAutoRefresh
  cases hi : d.autoRefreshInterval with
  | none => simp [hi]
  | some t => simp [handleTruthy_some]

/-- `pauseAutoRefresh` keeps handle and timer table linked. -/
theorem linked_pause (d : Dashboard) (hd : Linked d) : Linked (pauseAutoRefresh d) := by
  obtain ⟨h1, h2, h3⟩ := hd
  unfold pauseAutoRefresh
  cases hi : d.autoRefreshInterval with
  | none => simp [Linked, hi, h1, h3]
  | some t => simp [Linked, hi, handleTruthy_some, clearInterval, h1, h3]

/-- `resumeAutoRefresh` keeps handle and timer table linked. -/
theorem linked_resume (d : Dashboard) (hd : Linked d) : Linked (resumeAutoRefresh d) := by
  obtain ⟨h1, h2, h3⟩ := hd
  unfold resumeAutoRefresh
  cases hi : d.autoRefreshInterval with
  | none =>
    cases he : d.autoRefreshEnabled <;> simp [Linked, hi, h1, he, handleTruthy, setInterval, h3]
  | some t =>
    simp [Linked, hi, handleTruthy_some, h1, h3]
    cases he : d.autoRefreshEnabled with
    | true => rfl
    | false => have := h2 he; simp [hi] at this

/-- `toggleAutoRefresh` keeps handle and timer table linked. -/
theorem linked_toggle (d : Dashboard) (hd : Linked d) : Linked (toggleAutoRefresh d) := by
  obtain ⟨h1, h2, h3⟩ := hd
  unfold toggleAutoRefresh
  cases he : d.autoRefreshEnabled with
  | false =>
    have hn := h2 he
    simp [Linked, startAutoRefresh, setInterval, hn, h1, h3]
  | true =>
    cases hi : d.autoRefreshInterval with
    | none => simp [Linked, stopAutoRefresh, hi, h1, h3]
    | some t => simp [Linked, stopAutoRefresh, hi, h1, handleTruthy_some, clearInterval, h3]

/-- Setting `document.hidden` does not touch the scheduler. -/
theorem linked_hidden_flag (d : Dashboard) (b : Bool) (hd : Linked d) :
    Linked { d with documentHidden := b } := hd

/-- The `visibilitychange` listener keeps handle and timer table linked. -/
theorem linked_visibility (d : Dashboard) (hd : Linked d) : Linked (onVisibilityChange d) := by
  unfold onVisibilityChange
  split
  · exact linked_pause d hd
  · split
    · exact linked_resume d hd
    · exact hd

/-- Every event keeps handle and timer table linked. -/
theorem linked_step (d : Dashboard) (e : Event) (hd : Linked d) : Linked (step d e) := by
  cases e with
  | toggleClick => exact linked_toggle d hd
  | pageHidden => exact linked_visibility _ (linked_hidden_flag d true hd)
  | pageVisible => exact linked_visibility _ (linked_hidden_flag d false hd)

/-- Every trace keeps handle and timer table linked. -/
theorem linked_run (events : List Event) (d : Dashboard) (hd : Linked d) :
    Linked (run d events) := by
  induction events generalizing d with
  | nil => exact hd
  | cons e rest ih => exact ih (step d e) (linked_step d e hd)

/-- An event leaves a hidden page without handle, a click being delivered to a visible page. -/
theorem quiet_step (d : Dashboard) (e : Event)
    (hc : e = .toggleClick → d.documentHidden = false) : Quiet (step d e) := by
  cases e with
  | toggleClick =>
    have hv := hc rfl
    intro hh
    have : (toggleAutoRefresh d).documentHidden = d.documentHidden := by
      unfold toggleAutoRefresh
      cases he : d.autoRefreshEnabled with
      | false => simp [startAutoRefresh, setInterval]
      | true =>
        cases hi : d.autoRefreshInterval with
        | none => simp [stopAutoRefresh, hi]
        | some t => simp [stopAutoRefresh, hi, handleTruthy_some, clearInterval]
    simp only [step] at hh
    rw [this, hv] at hh
    exact absurd hh (by decide)
  | pageHidden =>
    intro _
    simp only [step, onVisibilityChange]
    simp [pause_interval]
  | pageVisible =>
    intro hh
    exfalso
    simp only [step, onVisibilityChange] at hh
    simp at hh
    split at hh
    · unfold resumeAutoRefresh at hh
      split at hh
      · simp [setInterval] at hh
      · simp at hh
    · simp at hh

/-- A trace whose clicks reach a visible page leaves a hidden page without handle. -/
theorem quiet_run (events : List Event) (d : Dashboard) (hq : Quiet d)
    (hc : clicksWhileVisible d events = true) : Quiet (run d events) := by
  induction events generalizing d with
  | nil => exact hq
  | cons e rest ih =>
    cases e with
    | toggleClick =>
      simp [clicksWhileVisible] at hc
      exact ih _ (quiet_step d .toggleClick (fun _ => hc.1)) hc.2
    | pageHidden =>
      simp [clicksWhileVisible] at hc
      exact ih _ (quiet_step d .pageHidden (by intro h; cases h)) hc
    | pageVisible =>
      simp [clicksWhileVisible] at hc
      exact ih _ (quiet_step d .pageVisible (by intro h; cases h)) hc


/-- Claim C8: in every state, `pauseAutoRefresh` keeps `autoRefreshEnabled`, leaves
`autoRefreshInterval` null and the timer it named cleared; `resumeAutoRefresh`
keeps `autoRefreshEnabled`, arms one timer at `refreshIntervalMs` and stores its
handle when auto-refresh is enabled and no handle is set, and changes nothing
otherwise. -/
theorem pause_resume_keep_enabled (d : Dashboard) :
    (pauseAutoRefresh d).autoRefreshEnabled = d.autoRefreshEnabled ∧
    (pauseAutoRefresh d).autoRefreshInterval = none ∧
    (∀ t, d.autoRefreshInterval = some t →
      ∀ e ∈ (pauseAutoRefresh d).activeTimers, e.1 ≠ t) ∧
    (resumeAutoRefresh d).autoRefreshEnabled = d.autoRefreshEnabled ∧
    (d.autoRefreshEnabled = true ∧ d.autoRefreshInterval = none →
      ∃ t, resumeAutoRefresh d =
        { d with autoRefreshInterval := some t
                 activeTimers := (t, d.refreshIntervalMs) :: d.activeTimers
                 handlesIssued := d.handlesIssued + 1 }) ∧
    (¬ (d.autoRefreshEnabled = true ∧ d.autoRefreshInterval = none) →
      resumeAutoRefresh d = d) := by
  refine ⟨?_, pause_interval d, ?_, ?_, ?_, ?_⟩
  · unfold pauseAutoRefresh
    cases hi : d.autoRefreshInterval with
    | none => simp
    | some t => simp [handleTruthy_some, clearInterval]
  · intro t ht e he
    unfold pauseAutoRefresh at he
    simp [ht, handleTruthy_some, clearInterval] at he
    exact he.2
  · unfold resumeAutoRefresh
    split
    · simp [setInterval]
    · rfl
  · rintro ⟨he, hi⟩
    exact ⟨⟨d.handlesIssued⟩, by simp [resumeAutoRefresh, he, hi, handleTruthy, setInterval]⟩
  · intro hn
    unfold resumeAutoRefresh
    cases hi : d.autoRefreshInterval with
    | none =>
      cases he : d.autoRefreshEnabled with
      | false => simp
      | true => exact absurd ⟨he, hi⟩ hn
    | some t => simp [handleTruthy_some]

/-- Claim C10: in every state reached from the initial one by toggle clicks and
visibility changes, the active timers are exactly the one `autoRefreshInterval`
names (at 5000 ms) when it is non-null, and none when it is null: the handle is
set iff exactly one timer is armed, null iff none is. -/
theorem handle_iff_timer_armed (els : Elements) (events : List Event) :
    (run (initial els) events).activeTimers =
      (run (initial els) events).autoRefreshInterval.toList.map (fun t => (t, 5000)) ∧
    ((run (initial els) events).autoRefreshInterval ≠ none ↔
      (run (initial els) events).activeTimers.length = 1) ∧
    ((run (initial els) events).autoRefreshInterval = none ↔
      (run (initial els) events).activeTimers.length = 0) := by
  obtain ⟨h1, _, h3⟩ := linked_run events (initial els) (linked_initial els)
  rw [h3] at h1
  refine ⟨h1, ?_, ?_⟩ <;>
    cases hi : (run (initial els) events).autoRefreshInterval <;> simp [h1, hi]

/-- Claim C9, as amended: over the traces in which every toggle click reaches a
visible page, a hidden page has no timer armed; and if auto-refresh is enabled
while the page is hidden, the page becoming visible arms exactly one timer at
5000 ms again, with no toggle. -/
theorem hidden_page_has_no_timer (els : Elements) (events : List Event)
    (hc : clicksWhileVisible (initial els) events = true) :
    ((run (initial els) events).documentHidden = true →
      (run (initial els) events).activeTimers = []) ∧
    ((run (initial els) events).documentHidden = true →
      (run (initial els) events).autoRefreshEnabled = true →
      ∃ t, (step (run (initial els) events) .pageVisible).autoRefreshInterval = some t ∧
        (step (run (initial els) events) .pageVisible).activeTimers = [(t, 5000)] ∧
        (step (run (initial els) events) .pageVisible).autoRefreshEnabled = true) := by
  obtain ⟨h1, _, h3⟩ := linked_run events (initial els) (linked_initial els)
  have hq := quiet_run events (initial els) (by intro h; simp [initial] at h) hc
  refine ⟨fun hh => by rw [h1, hq hh]; rfl, fun hh he => ?_⟩
  have hn := hq hh
  rw [hn] at h1
  refine ⟨⟨(run (initial els) events).handlesIssued⟩, ?_⟩
  simp [step, onVisibilityChange, resumeAutoRefresh, he, hn, handleTruthy, setInterval, h1, h3]

/-- Claim C9 on the trace enable, hide: no timer while hidden, one at 5000 ms once visible. -/
theorem hidden_page_has_no_timer_witness :
    clicksWhileVisible (initial sampleElements) [.toggleClick, .pageHidden] = true ∧
    (run (initial sampleElements) [.toggleClick, .pageHidden]).activeTimers = [] ∧
    ∃ t, (step (run (initial sampleElements) [.toggleClick, .pageHidden])
        .pageVisible).activeTimers = [(t, 5000)] :=
  ⟨by decide,
   (hidden_page_has_no_timer sampleElements [.toggleClick, .pageHidden] (by decide)).1
     (by decide),
   ((hidden_page_has_no_timer sampleElements [.toggleClick, .pageHidden] (by decide)).2
     (by decide) (by decide)).elim fun t ht => ⟨t, ht.2.1⟩⟩

/-- Claim C9 as stated fails: a toggle click delivered while the page is hidden arms
a timer on the hidden page. -/
theorem hidden_click_arms_timer :
    (run (initial sampleElements) [.pageHidden, .toggleClick]).documentHidden = true ∧
    (run (initial sampleElements) [.pageHidden, .toggleClick]).activeTimers ≠ [] := by
  decide

end SensorDashboard
